import Mathlib

/-!
Verification of the aemeath desktop-pet core against its specification.

The development shallowly embeds the two algorithmic cores of the program:

* `src/aemeath/cursor.py` — cursor-tracking backend selection
  (`create_cursor_tracker`), the Hyprland socket discovery, the
  X11/Qt button-state queries, and the Wayland hybrid fusion filter
  (`_WaylandHybridCursor.query`).
* `src/aemeath/pet.py` with `src/aemeath/config.py` — the pet behaviour
  finite-state machine (`Pet.update_mouse`, `Pet.tick`, the state
  handlers, and the idle-animation selection `Pet._pick_idle_gif`).

Python floats are modelled as real numbers; `math.hypot x y` becomes
`Real.sqrt (x ^ 2 + y ^ 2)`.  Randomness drawn from `random.*` is
supplied externally through oracle records (`WanderPick`, `IdleDraw`,
`TickRand`), one field per call site, so every run is a deterministic
function of the oracle.  Environment-dependent outcomes (which OS
facilities exist, whether a native constructor raises) are likewise
oracle parameters.
-/

/-- Euclidean norm of a 2-vector, the embedding of Python `math.hypot`. -/
noncomputable def hypot (a b : ℝ) : ℝ := Real.sqrt (a ^ 2 + b ^ 2)

lemma hypot_zero : hypot 0 0 = 0 := by simp [hypot]

lemma hypot_of_nonneg (x : ℝ) (hx : 0 ≤ x) : hypot x 0 = x := by
  simp [hypot, Real.sqrt_sq hx]

lemma hypot_nonneg (a b : ℝ) : 0 ≤ hypot a b := Real.sqrt_nonneg _

/-! ## Backend selection (`cursor.py`, `create_cursor_tracker`) -/

/-- Value of `sys.platform` as far as the factory distinguishes it. -/
inductive Platform where
  | win32
  | linux
  | other
deriving DecidableEq

/-- The concrete `CursorTracker` subclasses of `cursor.py`. -/
inductive Backend where
  | win32
  | hyprland
  | gnome
  | kde
  | wayland_hybrid
  | x11
  | qt
deriving DecidableEq

/-- Environment signals read by `create_cursor_tracker`, plus one oracle
bit per fallible backend constructor recording whether that constructor
raises in the current environment.  `_QtCursor` has no constructor body
in the source, hence no failure bit. -/
structure Env where
  platform : Platform
  wayland_display : String
  xdg_session_type : String
  hyprland_instance_signature : String
  xdg_current_desktop : String
  win32_fails : Bool
  hypr_fails : Bool
  gnome_fails : Bool
  kde_fails : Bool
  hybrid_fails : Bool
  x11_fails : Bool

/-- Embedding of one `try: return B() except Exception: pass` block:
`none` means the constructor raised and the factory falls through. -/
def try_construct (fails : Bool) (b : Backend) : Option Backend :=
  if fails then none else some b

/-- Substring test, the embedding of the Python `in` operator on strings. -/
def str_contains (hay needle : String) : Bool :=
  (List.range (hay.length + 1)).any fun i => needle.isPrefixOf (hay.drop i)

/-- Embedding of `create_cursor_tracker` from `cursor.py`.  Mirrors the
platform dispatch, the Wayland detection, the desktop-name matching, and
the ordered fallback chain ending in the unconditional `_QtCursor()`. -/
def create_cursor_tracker (e : Env) : Backend :=
  if e.platform = Platform.win32 then
    match try_construct e.win32_fails Backend.win32 with
    | some b => b
    | none => Backend.qt
  else if e.platform = Platform.linux then
    let wayland_candidate : Option Backend :=
      if e.wayland_display ≠ "" ∨ e.xdg_session_type = "wayland" then
        let desktop := e.xdg_current_desktop.toUpper
        (if e.hyprland_instance_signature ≠ "" then
            try_construct e.hypr_fails Backend.hyprland
          else none).orElse fun _ =>
        (if ["GNOME", "UBUNTU", "POP", "UNITY"].any (fun d => str_contains desktop d) then
            try_construct e.gnome_fails Backend.gnome
          else none).orElse fun _ =>
        (if ["KDE", "PLASMA"].any (fun d => str_contains desktop d) then
            try_construct e.kde_fails Backend.kde
          else none).orElse fun _ =>
        try_construct e.hybrid_fails Backend.wayland_hybrid
      else none
    match wayland_candidate with
    | some b => b
    | none =>
      match try_construct e.x11_fails Backend.x11 with
      | some b => b
      | none => Backend.qt
  else
    Backend.qt

/-! ## Hyprland socket discovery (`_HyprlandCursor.__init__`) -/

/-- Candidate socket paths probed by `_HyprlandCursor.__init__`. -/
def hypr_socket_candidates (runtime sig : String) : List String :=
  [runtime ++ "/hypr/" ++ sig ++ "/.socket.sock",
   "/tmp/hypr/" ++ sig ++ "/.socket.sock"]

/-- Value of the Python variable `self._socket_path` after the candidate
loop.  The variable is initialised to `""` (modelled `some ""`) and
reassigned to the first existing candidate; `none` would correspond to
the Python value `None`, which the subsequent guard tests for. -/
def hypr_socket_path (path_exists : String → Bool) (runtime sig : String) :
    Option String :=
  match (hypr_socket_candidates runtime sig).find? path_exists with
  | some p => some p
  | none => some ""

/-- Outcome of `_HyprlandCursor.__init__`: success, the
`RuntimeError("Hyprland IPC socket not found")` branch, or a failure of
the smoke-test `self._get_pos()` on the selected path. -/
inductive HyprInitResult where
  | ok (path : String)
  | socket_not_found
  | smoke_test_failed
deriving DecidableEq

/-- Embedding of `_HyprlandCursor.__init__`: select the socket path,
take the `RuntimeError` branch if it is `None`, otherwise smoke-test the
selected path (`responds` is the environment oracle for whether a
connection to a given path succeeds and answers `cursorpos`). -/
def hypr_init (path_exists responds : String → Bool) (runtime sig : String) :
    HyprInitResult :=
  match hypr_socket_path path_exists runtime sig with
  | none => HyprInitResult.socket_not_found
  | some p => if responds p then HyprInitResult.ok p else HyprInitResult.smoke_test_failed

/-! ## Button state of the queries (`_X11Cursor.query`, `_QtCursor.query`) -/

/-- Embedding of `bool(self._mask.value & (1 << 8))` in `_X11Cursor.query`
(bit 8 is `Button1Mask`). -/
def x11_query_pressed (mask : Nat) : Bool := mask &&& (1 <<< 8) != 0

/-- Embedding of `buttons != Qt.MouseButton.NoButton` in `_QtCursor.query`,
with `buttons` the Qt button bitmask (`LeftButton = 1`, `RightButton = 2`,
`MiddleButton = 4`). -/
def qt_query_pressed (buttons : Nat) : Bool := buttons != 0

/-- Whether the primary (left) button bit is set in an X11 modifier mask. -/
def x11_primary_held (mask : Nat) : Bool := mask.testBit 8

/-- Whether the primary (left) button bit is set in a Qt button bitmask. -/
def qt_primary_held (buttons : Nat) : Bool := buttons.testBit 0

/-! ## Wayland hybrid fusion filter (`_WaylandHybridCursor`) -/

/-- Mutable state of `_WaylandHybridCursor` relevant to `query`:
fused position `(x, y)`, last `XQueryPointer` reading
`(last_x11_x, last_x11_y)`, the dynamic `sensitivity`, and the X11
screen dimensions used for clamping. -/
structure HybridState where
  x : ℝ
  y : ℝ
  last_x11_x : ℝ
  last_x11_y : ℝ
  sensitivity : ℝ
  screen_w : ℝ
  screen_h : ℝ

/-- Inputs consumed by one call of `_WaylandHybridCursor.query`: the
drained raw deltas and button bit from `_read_mice()` (the Y delta
already negated to screen coordinates, as `_read_mice` returns it), and
the `XQueryPointer` reading. -/
structure HybridInput where
  raw_dx : ℤ
  raw_dy : ℤ
  mice_btn : Bool
  x11_x : ℝ
  x11_y : ℝ
  x11_btn : Bool

/-- Embedding of `_WaylandHybridCursor.query`: staleness detection,
direct adoption of a fresh `XQueryPointer` value with EMA sensitivity
recalibration above the noise floor `3.0`, extrapolation by
`raw_delta * sensitivity` with per-axis clamping when stale, and the OR
of the two button sources. -/
noncomputable def hybrid_query (s : HybridState) (i : HybridInput) :
    HybridState × (ℝ × ℝ × Bool) :=
  let x11_dx : ℝ := i.x11_x - s.last_x11_x
  let x11_dy : ℝ := i.x11_y - s.last_x11_y
  let s' :=
    if x11_dx ≠ 0 ∨ x11_dy ≠ 0 then
      let s := { s with x := i.x11_x, y := i.x11_y,
                        last_x11_x := i.x11_x, last_x11_y := i.x11_y }
      let raw_mag := hypot (i.raw_dx : ℝ) (i.raw_dy : ℝ)
      let actual_mag := hypot x11_dx x11_dy
      if raw_mag > 3 then
        { s with sensitivity := 0.85 * s.sensitivity + 0.15 * (actual_mag / raw_mag) }
      else s
    else
      if i.raw_dx ≠ 0 ∨ i.raw_dy ≠ 0 then
        { s with
          x := max 0 (min (s.screen_w - 1) (s.x + (i.raw_dx : ℝ) * s.sensitivity)),
          y := max 0 (min (s.screen_h - 1) (s.y + (i.raw_dy : ℝ) * s.sensitivity)) }
      else s
  (s', (s'.x, s'.y, i.x11_btn || i.mice_btn))

/-- State after a scripted sequence of `query` calls. -/
noncomputable def hybrid_run (s : HybridState) (l : List HybridInput) : HybridState :=
  l.foldl (fun s i => (hybrid_query s i).1) s

/-- Cumulative raw X delta of a script. -/
def raw_sum_x (l : List HybridInput) : ℝ := (l.map (fun i => (i.raw_dx : ℝ))).sum

/-- Cumulative raw Y delta of a script. -/
def raw_sum_y (l : List HybridInput) : ℝ := (l.map (fun i => (i.raw_dy : ℝ))).sum

/-! ## Configuration constants (`config.py`, base values) -/

namespace config

/-- Animation asset identifiers from `config.py`: `move.gif`, `drag.gif`,
`seal.gif`, and `idle1.gif` … `idle5.gif`. -/
inductive Gif where
  | move
  | drag
  | seal
  | idle (i : Nat)
deriving DecidableEq

def GIF_MOVE : Gif := Gif.move
def GIF_DRAG : Gif := Gif.drag
def GIF_SEAL : Gif := Gif.seal

/-- List comprehension `[GIFS_DIR / f"idle{i}.gif" for i in range(1, 6)]`. -/
def GIF_IDLE : List Gif := (List.range' 1 5).map Gif.idle

/-- The special `idle2.gif` whose probability ramps up. -/
def GIF_IDLE2 : Gif := Gif.idle 2

def MOVE_SPEED : ℝ := 4
def WANDER_SPEED : ℝ := 1.5
def NEAR_DISTANCE : ℝ := 80
def FAR_DISTANCE : ℝ := 250
def WANDER_RADIUS : ℝ := 80
def MOUSE_MOVE_THRESHOLD : ℝ := 5
def MOUSE_IDLE_T1 : ℝ := 30000
def MOUSE_IDLE_T2 : ℝ := 120000
def IDLE2_RAMP_DURATION : ℝ := 60000
def SEAL_WANDER_RADIUS : ℝ := 120

end config

/-! ## Pet state machine (`pet.py`) -/

/-- The `PetState` enumeration. -/
inductive PetState where
  | CHASING
  | WANDERING
  | IDLING
  | DRAGGING
  | SEAL_MODE
deriving DecidableEq

/-- Values drawn for one `_pick_wander_target`-shaped call site:
`random.uniform(0, 2π)`, `random.uniform(20, radius)`, and the
`random.randint` direction-change delay. -/
structure WanderPick where
  angle : ℝ
  radius : ℝ
  dir_delay : ℝ

/-- Values drawn inside `_pick_idle_gif`: the index selected by
`random.choice(GIF_IDLE)` and the `random.random()` roll. -/
structure IdleDraw where
  choice_idx : Nat
  roll : ℝ

/-- Random values potentially consumed by one `Pet.tick`, one field per
call site in the source (`pick1` for the direction-timer call of
`_handle_wandering` and for `_init_wander`, `pick2` for the
target-reached call of `_handle_wandering`). -/
structure TickRand where
  wander_duration : ℝ
  pick1 : WanderPick
  pick2 : WanderPick
  idle_draw : IdleDraw
  idle_duration : ℝ
  seal_pick : WanderPick

/-- Fields of the Python `Pet` object. -/
structure Pet where
  x : ℝ
  y : ℝ
  state : PetState
  prev_state : PetState
  mouse_x : ℝ
  mouse_y : ℝ
  last_mouse_x : ℝ
  last_mouse_y : ℝ
  mouse_idle_start_ms : ℝ
  mouse_idle_time : ℝ
  mouse_pressed : Bool
  wander_anchor_x : ℝ
  wander_anchor_y : ℝ
  wander_target_x : ℝ
  wander_target_y : ℝ
  wander_end_time : ℝ
  wander_dir_change_time : ℝ
  idle_end_time : ℝ
  idle_anchor_mouse_x : ℝ
  idle_anchor_mouse_y : ℝ
  seal_active : Bool
  seal_x : ℝ
  seal_y : ℝ
  seal_wander_target_x : ℝ
  seal_wander_target_y : ℝ
  seal_wander_dir_time : ℝ
  current_gif : config.Gif
  flipped : Bool
  seal_should_appear : Bool
  seal_should_disappear : Bool
  move_speed : ℝ
  wander_speed : ℝ

namespace Pet

/-- Embedding of `Pet.update_mouse`. -/
noncomputable def update_mouse (p : Pet) (mx my : ℝ) (buttons_pressed : Bool)
    (now_ms : ℝ) : Pet :=
  let p := { p with mouse_pressed := buttons_pressed }
  let dx := mx - p.last_mouse_x
  let dy := my - p.last_mouse_y
  let p :=
    if hypot dx dy > config.MOUSE_MOVE_THRESHOLD then
      let p := { p with mouse_idle_start_ms := now_ms, mouse_idle_time := 0 }
      if p.seal_active then
        { p with seal_active := false, seal_should_disappear := true }
      else p
    else
      { p with mouse_idle_time := now_ms - p.mouse_idle_start_ms }
  { p with last_mouse_x := mx, last_mouse_y := my, mouse_x := mx, mouse_y := my }

/-- Embedding of `Pet._move_toward`. -/
noncomputable def move_toward (p : Pet) (dx dy dist speed : ℝ) : Pet :=
  if dist ≤ speed then
    { p with x := p.x + dx, y := p.y + dy }
  else
    { p with x := p.x + dx / dist * speed, y := p.y + dy / dist * speed }

/-- Embedding of `Pet._pick_wander_target`, with the random draws taken
from the oracle record `w`. -/
noncomputable def pick_wander_target (p : Pet) (now_ms : ℝ) (w : WanderPick) : Pet :=
  { p with
    wander_target_x := p.wander_anchor_x + w.radius * Real.cos w.angle,
    wander_target_y := p.wander_anchor_y + w.radius * Real.sin w.angle,
    wander_dir_change_time := now_ms + w.dir_delay }

/-- Embedding of `Pet._init_wander`. -/
noncomputable def init_wander (p : Pet) (now_ms : ℝ) (r : TickRand) : Pet :=
  let p := { p with
    wander_anchor_x := p.mouse_x,
    wander_anchor_y := p.mouse_y,
    wander_end_time := now_ms + r.wander_duration }
  pick_wander_target p now_ms r.pick1

/-- Cumulative-distribution scan of `_pick_idle_gif`: walk the gif list,
adding each probability, returning the first gif whose cumulative bound
exceeds the roll (`none` when the loop falls through). -/
noncomputable def pick_cumulative (roll idle2_prob other_prob : ℝ) :
    List config.Gif → ℝ → Option config.Gif
  | [], _ => none
  | g :: rest, cum =>
    let prob := if g = config.GIF_IDLE2 then idle2_prob else other_prob
    if roll < cum + prob then some g
    else pick_cumulative roll idle2_prob other_prob rest (cum + prob)

/-- Embedding of `Pet._pick_idle_gif`. -/
noncomputable def pick_idle_gif (p : Pet) (d : IdleDraw) : config.Gif :=
  let n := config.GIF_IDLE.length
  if n = 0 then config.GIF_MOVE
  else if p.mouse_idle_time < config.MOUSE_IDLE_T1 then
    config.GIF_IDLE.getD (d.choice_idx % n) config.GIF_MOVE
  else
    let elapsed := p.mouse_idle_time - config.MOUSE_IDLE_T1
    let ramp := min (elapsed / config.IDLE2_RAMP_DURATION) 1
    let base := 1 / (n : ℝ)
    let idle2_prob := base + ramp * (1 - base)
    let other_prob := (1 - idle2_prob) / (max (n - 1) 1 : Nat)
    match pick_cumulative d.roll idle2_prob other_prob config.GIF_IDLE 0 with
    | some g => g
    | none => config.GIF_IDLE.getLastD config.GIF_MOVE

/-- Embedding of `Pet._init_idle`. -/
noncomputable def init_idle (p : Pet) (now_ms : ℝ) (r : TickRand) : Pet :=
  let p := { p with
    idle_anchor_mouse_x := p.mouse_x,
    idle_anchor_mouse_y := p.mouse_y }
  let p := { p with current_gif := pick_idle_gif p r.idle_draw }
  { p with idle_end_time := now_ms + r.idle_duration, flipped := false }

/-- Embedding of `Pet._handle_dragging`. -/
def handle_dragging (p : Pet) : Pet :=
  { p with current_gif := config.GIF_DRAG, flipped := false }

/-- Embedding of `Pet._handle_chasing`. -/
noncomputable def handle_chasing (p : Pet) (dx dy dist now_ms : ℝ)
    (r : TickRand) : Pet :=
  if dist < config.NEAR_DISTANCE then
    init_wander { p with state := PetState.WANDERING } now_ms r
  else
    let p := move_toward p dx dy dist p.move_speed
    { p with current_gif := config.GIF_MOVE, flipped := decide (dx < 0) }

/-- Embedding of `Pet._handle_wandering`. -/
noncomputable def handle_wandering (p : Pet) (dx dy dist now_ms : ℝ)
    (r : TickRand) : Pet :=
  if dist > config.FAR_DISTANCE ∧ p.seal_active = false then
    { p with state := PetState.CHASING }
  else if now_ms > p.wander_end_time then
    init_idle { p with state := PetState.IDLING } now_ms r
  else
    let p :=
      if p.seal_active then
        { p with wander_anchor_x := p.seal_x, wander_anchor_y := p.seal_y }
      else
        { p with wander_anchor_x := p.mouse_x, wander_anchor_y := p.mouse_y }
    let p :=
      if now_ms > p.wander_dir_change_time then pick_wander_target p now_ms r.pick1
      else p
    let wx := p.wander_target_x - p.x
    let wy := p.wander_target_y - p.y
    let wdist := hypot wx wy
    let p :=
      if wdist < p.wander_speed then pick_wander_target p now_ms r.pick2
      else move_toward p wx wy wdist p.wander_speed
    { p with current_gif := config.GIF_MOVE, flipped := decide (wx < 0) }

/-- Embedding of `Pet._handle_idling`. -/
noncomputable def handle_idling (p : Pet) (dx dy dist now_ms : ℝ)
    (r : TickRand) : Pet :=
  if dist > config.FAR_DISTANCE ∧ p.seal_active = false then
    { p with state := PetState.CHASING }
  else if p.seal_active = false ∧
      hypot (p.mouse_x - p.idle_anchor_mouse_x) (p.mouse_y - p.idle_anchor_mouse_y)
        > config.MOUSE_MOVE_THRESHOLD * 10 then
    init_wander { p with state := PetState.WANDERING } now_ms r
  else if p.seal_active = false ∧ p.mouse_idle_time > config.MOUSE_IDLE_T2 then
    { p with
      seal_active := true,
      seal_should_appear := true,
      state := PetState.SEAL_MODE,
      seal_wander_dir_time := 0 }
  else
    let p :=
      if now_ms > p.idle_end_time then
        { p with
          current_gif := pick_idle_gif p r.idle_draw,
          idle_end_time := now_ms + r.idle_duration }
      else p
    { p with flipped := false }

/-- Embedding of `Pet._handle_seal_mode`. -/
noncomputable def handle_seal_mode (p : Pet) (dx dy dist now_ms : ℝ)
    (r : TickRand) : Pet :=
  if p.seal_active = false then
    { p with state := PetState.CHASING }
  else
    let sdx := p.seal_x - p.x
    let sdy := p.seal_y - p.y
    let sdist := hypot sdx sdy
    if sdist > config.NEAR_DISTANCE then
      let p := move_toward p sdx sdy sdist p.move_speed
      { p with current_gif := config.GIF_MOVE, flipped := decide (sdx < 0) }
    else
      let p :=
        if now_ms > p.seal_wander_dir_time then
          { p with
            seal_wander_target_x := p.seal_x + r.seal_pick.radius * Real.cos r.seal_pick.angle,
            seal_wander_target_y := p.seal_y + r.seal_pick.radius * Real.sin r.seal_pick.angle,
            seal_wander_dir_time := now_ms + r.seal_pick.dir_delay }
        else p
      let wx := p.seal_wander_target_x - p.x
      let wy := p.seal_wander_target_y - p.y
      let wdist := hypot wx wy
      let p :=
        if wdist > p.wander_speed then move_toward p wx wy wdist p.wander_speed
        else p
      { p with current_gif := config.GIF_MOVE, flipped := decide (wx < 0) }

/-- Chase target chosen by `Pet.tick` after the drag interrupt has been
applied: the seal position when a seal is active and the pet is not
being dragged, else the mouse position. -/
def tick_target (p : Pet) : ℝ × ℝ :=
  if p.seal_active = true ∧ p.state ≠ PetState.DRAGGING then (p.seal_x, p.seal_y)
  else (p.mouse_x, p.mouse_y)

/-- Distance from the pet to its tick target. -/
noncomputable def target_dist (p : Pet) : ℝ :=
  hypot ((tick_target p).1 - p.x) ((tick_target p).2 - p.y)

/-- Embedding of `Pet.tick`: drag interrupt, target selection, and
dispatch to the current state handler. -/
noncomputable def tick (p : Pet) (now_ms : ℝ) (r : TickRand) : Pet :=
  let p :=
    if p.mouse_pressed = true ∧ p.state ≠ PetState.DRAGGING then
      { p with prev_state := p.state, state := PetState.DRAGGING }
    else if p.mouse_pressed = false ∧ p.state = PetState.DRAGGING then
      { p with state := p.prev_state }
    else p
  let dx := (tick_target p).1 - p.x
  let dy := (tick_target p).2 - p.y
  let dist := hypot dx dy
  match p.state with
  | PetState.CHASING => handle_chasing p dx dy dist now_ms r
  | PetState.WANDERING => handle_wandering p dx dy dist now_ms r
  | PetState.IDLING => handle_idling p dx dy dist now_ms r
  | PetState.DRAGGING => handle_dragging p
  | PetState.SEAL_MODE => handle_seal_mode p dx dy dist now_ms r

end Pet

/-- Embedding of one iteration of `AemeathApp._tick`, restricted to the
pet logic: reset the one-shot seal flags, feed the mouse sample, then
advance the state machine, all with the same timestamp. -/
noncomputable def app_tick (p : Pet) (mx my : ℝ) (buttons : Bool) (now_ms : ℝ)
    (r : TickRand) : Pet :=
  let p := { p with seal_should_appear := false, seal_should_disappear := false }
  Pet.tick (Pet.update_mouse p mx my buttons now_ms) now_ms r

/-! ## Claim theorems: backend selection and queries -/

/-- C1: for every environment-signal combination and every pattern of
constructor failures, `create_cursor_tracker` terminates and returns
exactly one backend, never surfacing an error; in particular, when every
fallible constructor fails, the unconditional Qt toolkit fallback is
returned. -/
theorem create_cursor_tracker_total (e : Env) :
    (∃! b, create_cursor_tracker e = b) ∧
    (e.win32_fails = true → e.hypr_fails = true → e.gnome_fails = true →
     e.kde_fails = true → e.hybrid_fails = true → e.x11_fails = true →
     create_cursor_tracker e = Backend.qt) := by
  refine ⟨⟨create_cursor_tracker e, rfl, fun b hb => hb.symm⟩, ?_⟩
  intro h1 h2 h3 h4 h5 h6
  simp only [create_cursor_tracker, try_construct, h1, h2, h3, h4, h5, h6,
    if_true, Option.orElse]
  split_ifs <;> rfl

/-- Witness for C1: a Wayland KDE environment in which every fallible
constructor fails still yields the Qt fallback. -/
theorem create_cursor_tracker_total_witness :
    create_cursor_tracker
      ⟨Platform.linux, "wayland-0", "wayland", "sig1", "KDE", true, true,
        true, true, true, true⟩ = Backend.qt :=
  (create_cursor_tracker_total _).2 rfl rfl rfl rfl rfl rfl

/-- C10: the guard `if self._socket_path is None` in
`_HyprlandCursor.__init__` is unreachable: the selected socket path is
never `None`, so the `RuntimeError("Hyprland IPC socket not found")`
branch is never taken; when no candidate path exists and the empty path
does not respond, construction fails from the `_get_pos` smoke test
instead. -/
theorem hypr_socket_guard_unreachable (path_exists responds : String → Bool)
    (runtime sig : String) :
    hypr_socket_path path_exists runtime sig ≠ none ∧
    hypr_init path_exists responds runtime sig ≠ HyprInitResult.socket_not_found ∧
    ((∀ p ∈ hypr_socket_candidates runtime sig, path_exists p = false) →
      responds "" = false →
      hypr_init path_exists responds runtime sig = HyprInitResult.smoke_test_failed) := by
  have hpath : ∀ o, ((hypr_socket_candidates runtime sig).find? path_exists = o) →
      hypr_socket_path path_exists runtime sig ≠ none := by
    intro o ho
    unfold hypr_socket_path
    cases h : (hypr_socket_candidates runtime sig).find? path_exists <;> simp
  refine ⟨hpath _ rfl, ?_, ?_⟩
  · unfold hypr_init
    cases h : hypr_socket_path path_exists runtime sig with
    | none => exact absurd h (hpath _ rfl)
    | some p =>
      dsimp only
      split_ifs <;> simp
  · intro hall hresp
    have hfind : (hypr_socket_candidates runtime sig).find? path_exists = none :=
      List.find?_eq_none.mpr fun x hx => by simp [hall x hx]
    unfold hypr_init hypr_socket_path
    rw [hfind]
    simp [hresp]

/-- Witness for C10: with no candidate socket existing and no socket
responding, initialisation fails in the smoke test, not in the `None`
guard. -/
theorem hypr_socket_guard_unreachable_witness :
    (∀ p ∈ hypr_socket_candidates "/run/user/1000" "sig1",
      (fun _ : String => false) p = false) ∧
    (fun _ : String => false) "" = false ∧
    hypr_init (fun _ => false) (fun _ => false) "/run/user/1000" "sig1"
      = HyprInitResult.smoke_test_failed :=
  ⟨fun _ _ => rfl, rfl,
    (hypr_socket_guard_unreachable (fun _ => false) (fun _ => false)
      "/run/user/1000" "sig1").2.2 (fun _ _ => rfl) rfl⟩

/-- C9, counterexample: with only the middle button held
(`Qt.MouseButton.MiddleButton = 4`), `_QtCursor.query` reports
`pressed = true` although the primary button is not held, so the
`pressed` flag does not reflect the primary button only. -/
theorem qt_pressed_not_primary_only :
    qt_query_pressed 4 = true ∧ qt_primary_held 4 = false := by decide

/-- C9, amended: `_X11Cursor.query` reports the primary button only
(its `pressed` is exactly bit 8, `Button1Mask`, of the modifier mask),
while the `_QtCursor` fallback reports `pressed` whenever any button bit
is set, including a secondary or middle button alone. -/
theorem pressed_flag_characterization :
    (∀ mask, x11_query_pressed mask = x11_primary_held mask) ∧
    (∀ buttons, qt_query_pressed buttons = true ↔ buttons ≠ 0) := by
  constructor
  · intro mask
    have h256 : (1 <<< 8 : Nat) = 2 ^ 8 := by decide
    have h := Nat.and_two_pow mask 8
    unfold x11_query_pressed x11_primary_held
    rw [h256, h]
    cases mask.testBit 8 <;> simp
  · intro buttons
    simp [qt_query_pressed]

/-- C5: the one-shot seal spawn/despawn flags are reset to `false` at
the start of every application tick before the tick logic can set them:
the result of a tick does not depend on the flags' values before it. -/
theorem app_tick_resets_one_shot_flags (p : Pet) (a b : Bool) (mx my : ℝ)
    (buttons : Bool) (now_ms : ℝ) (r : TickRand) :
    app_tick { p with seal_should_appear := a, seal_should_disappear := b }
        mx my buttons now_ms r
      = app_tick p mx my buttons now_ms r := by
  cases p
  rfl

/-! ## Claim theorems: fusion filter -/

lemma raw_sum_x_cons (i : HybridInput) (l : List HybridInput) :
    raw_sum_x (i :: l) = (i.raw_dx : ℝ) + raw_sum_x l := by
  simp [raw_sum_x]

lemma raw_sum_y_cons (i : HybridInput) (l : List HybridInput) :
    raw_sum_y (i :: l) = (i.raw_dy : ℝ) + raw_sum_y l := by
  simp [raw_sum_y]

lemma hybrid_query_stale_step (s : HybridState) (i : HybridInput)
    (hx : i.x11_x = s.last_x11_x) (hy : i.x11_y = s.last_x11_y) :
    (hybrid_query s i).1 =
      if i.raw_dx ≠ 0 ∨ i.raw_dy ≠ 0 then
        { s with
          x := max 0 (min (s.screen_w - 1) (s.x + (i.raw_dx : ℝ) * s.sensitivity)),
          y := max 0 (min (s.screen_h - 1) (s.y + (i.raw_dy : ℝ) * s.sensitivity)) }
      else s := by
  have hc : ¬ (i.x11_x - s.last_x11_x ≠ 0 ∨ i.x11_y - s.last_x11_y ≠ 0) := by
    push_neg
    exact ⟨sub_eq_zero.mpr hx, sub_eq_zero.mpr hy⟩
  simp only [hybrid_query, if_neg hc]

lemma hybrid_run_stale_inv (l : List HybridInput) :
    ∀ s : HybridState,
      (∀ i ∈ l, i.x11_x = s.last_x11_x ∧ i.x11_y = s.last_x11_y) →
      (hybrid_run s l).sensitivity = s.sensitivity ∧
      (hybrid_run s l).last_x11_x = s.last_x11_x ∧
      (hybrid_run s l).last_x11_y = s.last_x11_y := by
  induction l with
  | nil => intro s _; exact ⟨rfl, rfl, rfl⟩
  | cons i l ih =>
    intro s hstale
    obtain ⟨hx, hy⟩ := hstale i (List.mem_cons_self i l)
    have hstep := hybrid_query_stale_step s i hx hy
    have hrun : hybrid_run s (i :: l) = hybrid_run ((hybrid_query s i).1) l := by
      simp [hybrid_run]
    rw [hrun, hstep]
    split_ifs with hraw
    · exact ih _ fun j hj => hstale j (List.mem_cons_of_mem i hj)
    · exact ih _ fun j hj => hstale j (List.mem_cons_of_mem i hj)

lemma hybrid_run_stale_sum (l : List HybridInput) :
    ∀ s : HybridState,
      (∀ i ∈ l, i.x11_x = s.last_x11_x ∧ i.x11_y = s.last_x11_y) →
      (∀ k ≤ l.length, 0 ≤ s.x + raw_sum_x (l.take k) * s.sensitivity ∧
          s.x + raw_sum_x (l.take k) * s.sensitivity ≤ s.screen_w - 1) →
      (∀ k ≤ l.length, 0 ≤ s.y + raw_sum_y (l.take k) * s.sensitivity ∧
          s.y + raw_sum_y (l.take k) * s.sensitivity ≤ s.screen_h - 1) →
      (hybrid_run s l).x = s.x + raw_sum_x l * s.sensitivity ∧
      (hybrid_run s l).y = s.y + raw_sum_y l * s.sensitivity := by
  induction l with
  | nil =>
    intro s _ _ _
    simp [hybrid_run, raw_sum_x, raw_sum_y]
  | cons i l ih =>
    intro s hstale hbx hby
    obtain ⟨hx, hy⟩ := hstale i (List.mem_cons_self i l)
    have hstep := hybrid_query_stale_step s i hx hy
    have hrun : hybrid_run s (i :: l) = hybrid_run ((hybrid_query s i).1) l := by
      simp [hybrid_run]
    by_cases hraw : i.raw_dx ≠ 0 ∨ i.raw_dy ≠ 0
    · -- the head advances the position and clamps; the bounds hypothesis
      -- at k = 1 shows the clamp is the identity here
      have h1x := hbx 1 (by simp)
      have h1y := hby 1 (by simp)
      have htake1x : raw_sum_x ((i :: l).take 1) = (i.raw_dx : ℝ) := by
        simp [raw_sum_x]
      have htake1y : raw_sum_y ((i :: l).take 1) = (i.raw_dy : ℝ) := by
        simp [raw_sum_y]
      rw [htake1x] at h1x
      rw [htake1y] at h1y
      have hclampx : max 0 (min (s.screen_w - 1) (s.x + (i.raw_dx : ℝ) * s.sensitivity))
          = s.x + (i.raw_dx : ℝ) * s.sensitivity := by
        rw [min_eq_right h1x.2, max_eq_right h1x.1]
      have hclampy : max 0 (min (s.screen_h - 1) (s.y + (i.raw_dy : ℝ) * s.sensitivity))
          = s.y + (i.raw_dy : ℝ) * s.sensitivity := by
        rw [min_eq_right h1y.2, max_eq_right h1y.1]
      set s' : HybridState :=
        { s with
          x := s.x + (i.raw_dx : ℝ) * s.sensitivity,
          y := s.y + (i.raw_dy : ℝ) * s.sensitivity } with hs'
      have hstep' : (hybrid_query s i).1 = s' := by
        rw [hstep, if_pos hraw, hclampx, hclampy]
      have hstale' : ∀ j ∈ l, j.x11_x = s'.last_x11_x ∧ j.x11_y = s'.last_x11_y :=
        fun j hj => hstale j (List.mem_cons_of_mem i hj)
      have hbx' : ∀ k ≤ l.length, 0 ≤ s'.x + raw_sum_x (l.take k) * s'.sensitivity ∧
          s'.x + raw_sum_x (l.take k) * s'.sensitivity ≤ s'.screen_w - 1 := by
        intro k hk
        have := hbx (k + 1) (by simpa using Nat.succ_le_succ hk)
        have htk : raw_sum_x ((i :: l).take (k + 1)) = (i.raw_dx : ℝ) + raw_sum_x (l.take k) := by
          simp [List.take_succ_cons, raw_sum_x_cons]
        rw [htk] at this
        constructor
        · calc (0 : ℝ) ≤ s.x + ((i.raw_dx : ℝ) + raw_sum_x (l.take k)) * s.sensitivity := this.1
          _ = s'.x + raw_sum_x (l.take k) * s'.sensitivity := by rw [hs']; ring
        · calc s'.x + raw_sum_x (l.take k) * s'.sensitivity
              = s.x + ((i.raw_dx : ℝ) + raw_sum_x (l.take k)) * s.sensitivity := by rw [hs']; ring
          _ ≤ s.screen_w - 1 := this.2
      have hby' : ∀ k ≤ l.length, 0 ≤ s'.y + raw_sum_y (l.take k) * s'.sensitivity ∧
          s'.y + raw_sum_y (l.take k) * s'.sensitivity ≤ s'.screen_h - 1 := by
        intro k hk
        have := hby (k + 1) (by simpa using Nat.succ_le_succ hk)
        have htk : raw_sum_y ((i :: l).take (k + 1)) = (i.raw_dy : ℝ) + raw_sum_y (l.take k) := by
          simp [List.take_succ_cons, raw_sum_y_cons]
        rw [htk] at this
        constructor
        · calc (0 : ℝ) ≤ s.y + ((i.raw_dy : ℝ) + raw_sum_y (l.take k)) * s.sensitivity := this.1
          _ = s'.y + raw_sum_y (l.take k) * s'.sensitivity := by rw [hs']; ring
        · calc s'.y + raw_sum_y (l.take k) * s'.sensitivity
              = s.y + ((i.raw_dy : ℝ) + raw_sum_y (l.take k)) * s.sensitivity := by rw [hs']; ring
          _ ≤ s.screen_h - 1 := this.2
      obtain ⟨ihx, ihy⟩ := ih s' hstale' hbx' hby'
      rw [hrun, hstep']
      constructor
      · rw [ihx, raw_sum_x_cons, hs']
        dsimp only
        ring
      · rw [ihy, raw_sum_y_cons, hs']
        dsimp only
        ring
    · -- zero raw delta: the state is unchanged by this query
      push_neg at hraw
      have hstep' : (hybrid_query s i).1 = s := by
        rw [hstep, if_neg (by push_neg; exact hraw)]
      have hstale' : ∀ j ∈ l, j.x11_x = s.last_x11_x ∧ j.x11_y = s.last_x11_y :=
        fun j hj => hstale j (List.mem_cons_of_mem i hj)
      have hbx' : ∀ k ≤ l.length, 0 ≤ s.x + raw_sum_x (l.take k) * s.sensitivity ∧
          s.x + raw_sum_x (l.take k) * s.sensitivity ≤ s.screen_w - 1 := by
        intro k hk
        have := hbx (k + 1) (by simpa using Nat.succ_le_succ hk)
        have htk : raw_sum_x ((i :: l).take (k + 1)) = (i.raw_dx : ℝ) + raw_sum_x (l.take k) := by
          simp [List.take_succ_cons, raw_sum_x_cons]
        rw [htk, hraw.1] at this
        simpa using this
      have hby' : ∀ k ≤ l.length, 0 ≤ s.y + raw_sum_y (l.take k) * s.sensitivity ∧
          s.y + raw_sum_y (l.take k) * s.sensitivity ≤ s.screen_h - 1 := by
        intro k hk
        have := hby (k + 1) (by simpa using Nat.succ_le_succ hk)
        have htk : raw_sum_y ((i :: l).take (k + 1)) = (i.raw_dy : ℝ) + raw_sum_y (l.take k) := by
          simp [List.take_succ_cons, raw_sum_y_cons]
        rw [htk, hraw.2] at this
        simpa using this
      obtain ⟨ihx, ihy⟩ := ih s hstale' hbx' hby'
      rw [hrun, hstep']
      rw [ihx, ihy, raw_sum_x_cons, raw_sum_y_cons, hraw.1, hraw.2]
      constructor <;> · push_cast; ring

/-- Seed state used by the stale-extrapolation counterexample: fused
position `(0, 0)`, last X11 reading `(0, 0)`, sensitivity `1`, screen
`100 × 100`. -/
noncomputable def stale_cex_state : HybridState := ⟨0, 0, 0, 0, 1, 100, 100⟩

/-- Script of two stale queries whose raw X deltas are `-10` then `5`. -/
def stale_cex_script : List HybridInput :=
  [⟨-10, 0, false, 0, 0, false⟩, ⟨5, 0, false, 0, 0, false⟩]

/-- C2, counterexample: over a script in which every precise delta is
zero, the fused position does not equal the seeded position plus the
cumulative sum of `raw_delta * sensitivity` clamped once at the end —
the code clamps after each step, so a left-edge clamp at the first step
(`-10`, clamped to `0`) is not undone by the later `+5`. -/
theorem hybrid_stale_cumulative_cex :
    (∀ i ∈ stale_cex_script, i.x11_x = stale_cex_state.last_x11_x ∧
        i.x11_y = stale_cex_state.last_x11_y) ∧
    (hybrid_run stale_cex_state stale_cex_script).x ≠
      max 0 (min (stale_cex_state.screen_w - 1)
        (stale_cex_state.x + raw_sum_x stale_cex_script * stale_cex_state.sensitivity)) := by
  constructor
  · intro i hi
    fin_cases hi <;> exact ⟨rfl, rfl⟩
  · have h1 : (hybrid_query stale_cex_state ⟨-10, 0, false, 0, 0, false⟩).1
        = stale_cex_state := by
      rw [hybrid_query_stale_step stale_cex_state _ rfl rfl,
        if_pos (Or.inl (by decide))]
      show ({ stale_cex_state with
        x := max 0 (min (stale_cex_state.screen_w - 1)
          (stale_cex_state.x + ((-10 : ℤ) : ℝ) * stale_cex_state.sensitivity)),
        y := max 0 (min (stale_cex_state.screen_h - 1)
          (stale_cex_state.y + ((0 : ℤ) : ℝ) * stale_cex_state.sensitivity)) } : HybridState)
        = stale_cex_state
      have hx : max 0 (min ((100 : ℝ) - 1) ((0 : ℝ) + ((-10 : ℤ) : ℝ) * 1)) = 0 := by
        norm_num
      have hy : max 0 (min ((100 : ℝ) - 1) ((0 : ℝ) + ((0 : ℤ) : ℝ) * 1)) = 0 := by
        norm_num
      simp only [stale_cex_state] at hx hy ⊢
      rw [hx, hy]
    have h2 : (hybrid_run stale_cex_state stale_cex_script).x
        = max 0 (min ((100 : ℝ) - 1) ((0 : ℝ) + ((5 : ℤ) : ℝ) * 1)) := by
      show (hybrid_query (hybrid_query stale_cex_state ⟨-10, 0, false, 0, 0, false⟩).1
        ⟨5, 0, false, 0, 0, false⟩).1.x = _
      rw [h1, hybrid_query_stale_step stale_cex_state _ rfl rfl,
        if_pos (Or.inl (by decide))]
      norm_num [stale_cex_state]
    rw [h2]
    have hsum : raw_sum_x stale_cex_script = -5 := by
      norm_num [raw_sum_x, stale_cex_script]
    rw [hsum]
    simp only [stale_cex_state]
    norm_num

/-- C2, amended: each stale query with a nonzero raw delta advances the
fused position by `raw_delta * sensitivity` and clamps it to the display
bounds immediately (leaving the sensitivity untouched); over an all-stale
script the sensitivity never changes, and the fused position equals the
seeded position plus the cumulative sum of `raw_delta * sensitivity`
whenever every intermediate position stays within the display bounds (so
that no per-step clamp engages). -/
theorem hybrid_stale_advances_and_clamps :
    (∀ (s : HybridState) (i : HybridInput),
      i.x11_x = s.last_x11_x → i.x11_y = s.last_x11_y →
      i.raw_dx ≠ 0 ∨ i.raw_dy ≠ 0 →
      (hybrid_query s i).1.x
          = max 0 (min (s.screen_w - 1) (s.x + (i.raw_dx : ℝ) * s.sensitivity)) ∧
      (hybrid_query s i).1.y
          = max 0 (min (s.screen_h - 1) (s.y + (i.raw_dy : ℝ) * s.sensitivity)) ∧
      (hybrid_query s i).1.sensitivity = s.sensitivity) ∧
    (∀ (s : HybridState) (l : List HybridInput),
      (∀ i ∈ l, i.x11_x = s.last_x11_x ∧ i.x11_y = s.last_x11_y) →
      (hybrid_run s l).sensitivity = s.sensitivity ∧
      ((∀ k ≤ l.length, 0 ≤ s.x + raw_sum_x (l.take k) * s.sensitivity ∧
            s.x + raw_sum_x (l.take k) * s.sensitivity ≤ s.screen_w - 1) →
       (∀ k ≤ l.length, 0 ≤ s.y + raw_sum_y (l.take k) * s.sensitivity ∧
            s.y + raw_sum_y (l.take k) * s.sensitivity ≤ s.screen_h - 1) →
       (hybrid_run s l).x = s.x + raw_sum_x l * s.sensitivity ∧
       (hybrid_run s l).y = s.y + raw_sum_y l * s.sensitivity)) := by
  constructor
  · intro s i hx hy hraw
    rw [hybrid_query_stale_step s i hx hy, if_pos hraw]
    exact ⟨rfl, rfl, rfl⟩
  · intro s l hstale
    exact ⟨(hybrid_run_stale_inv l s hstale).1,
      fun hbx hby => hybrid_run_stale_sum l s hstale hbx hby⟩

/-- Seed state for the in-bounds stale-run witness. -/
noncomputable def stale_wit_state : HybridState := ⟨10, 10, 0, 0, 1, 100, 100⟩

/-- Single stale query with raw delta `(5, 0)`. -/
def stale_wit_script : List HybridInput := [⟨5, 0, false, 0, 0, false⟩]

/-- Witness for the amended C2 theorem: one in-bounds stale query moves
the fused position from `10` to `10 + 5 * 1`. -/
theorem hybrid_stale_advances_witness :
    (∀ i ∈ stale_wit_script, i.x11_x = stale_wit_state.last_x11_x ∧
        i.x11_y = stale_wit_state.last_x11_y) ∧
    (hybrid_run stale_wit_state stale_wit_script).x
      = stale_wit_state.x + raw_sum_x stale_wit_script * stale_wit_state.sensitivity := by
  have hstale : ∀ i ∈ stale_wit_script, i.x11_x = stale_wit_state.last_x11_x ∧
      i.x11_y = stale_wit_state.last_x11_y := by
    intro i hi
    fin_cases hi
    exact ⟨rfl, rfl⟩
  refine ⟨hstale, ?_⟩
  refine ((hybrid_stale_advances_and_clamps.2 stale_wit_state stale_wit_script hstale).2
    ?_ ?_).1
  · intro k hk
    simp only [stale_wit_script, List.length_cons, List.length_nil] at hk
    interval_cases k <;>
      norm_num [stale_wit_state, stale_wit_script, raw_sum_x]
  · intro k hk
    simp only [stale_wit_script, List.length_cons, List.length_nil] at hk
    interval_cases k <;>
      norm_num [stale_wit_state, stale_wit_script, raw_sum_y]

/-- C3: on a fresh precise reading the fused position and `primary_last`
are set exactly to the precise reading, and the sensitivity is
re-estimated by the EMA `0.85 * s + 0.15 * (|prim_delta| / |raw_delta|)`
exactly when the accumulated raw magnitude exceeds the noise floor `3`;
in particular a zero raw delta never changes the sensitivity. -/
theorem hybrid_query_fresh_adopts (s : HybridState) (i : HybridInput)
    (hfresh : i.x11_x ≠ s.last_x11_x ∨ i.x11_y ≠ s.last_x11_y) :
    (hybrid_query s i).1.x = i.x11_x ∧
    (hybrid_query s i).1.y = i.x11_y ∧
    (hybrid_query s i).1.last_x11_x = i.x11_x ∧
    (hybrid_query s i).1.last_x11_y = i.x11_y ∧
    (hypot (i.raw_dx : ℝ) (i.raw_dy : ℝ) > 3 →
      (hybrid_query s i).1.sensitivity
        = 0.85 * s.sensitivity + 0.15 *
            (hypot (i.x11_x - s.last_x11_x) (i.x11_y - s.last_x11_y) /
              hypot (i.raw_dx : ℝ) (i.raw_dy : ℝ))) ∧
    (¬ hypot (i.raw_dx : ℝ) (i.raw_dy : ℝ) > 3 →
      (hybrid_query s i).1.sensitivity = s.sensitivity) ∧
    (i.raw_dx = 0 → i.raw_dy = 0 →
      (hybrid_query s i).1.sensitivity = s.sensitivity) := by
  have hc : i.x11_x - s.last_x11_x ≠ 0 ∨ i.x11_y - s.last_x11_y ≠ 0 := by
    rcases hfresh with h | h
    · exact Or.inl (sub_ne_zero.mpr h)
    · exact Or.inr (sub_ne_zero.mpr h)
  simp only [hybrid_query]
  rw [if_pos hc]
  by_cases hmag : hypot (i.raw_dx : ℝ) (i.raw_dy : ℝ) > 3
  · rw [if_pos hmag]
    refine ⟨rfl, rfl, rfl, rfl, fun _ => rfl, fun h => absurd hmag h, ?_⟩
    intro hdx hdy
    rw [hdx, hdy] at hmag
    norm_num [hypot_zero] at hmag
  · rw [if_neg hmag]
    exact ⟨rfl, rfl, rfl, rfl, fun h => absurd h hmag, fun _ => rfl, fun _ _ => rfl⟩

/-- Seed state for the fresh-adoption witness. -/
noncomputable def fresh_wit_state : HybridState := ⟨0, 0, 0, 0, 1, 100, 100⟩

/-- Fresh reading at `(10, 0)` with zero raw delta. -/
noncomputable def fresh_wit_input : HybridInput := ⟨0, 0, false, 10, 0, false⟩

/-- Witness for C3: a fresh reading with zero raw delta is adopted as
the fused position and leaves the sensitivity unchanged. -/
theorem hybrid_query_fresh_adopts_witness :
    (fresh_wit_input.x11_x ≠ fresh_wit_state.last_x11_x ∨
      fresh_wit_input.x11_y ≠ fresh_wit_state.last_x11_y) ∧
    (hybrid_query fresh_wit_state fresh_wit_input).1.x = fresh_wit_input.x11_x ∧
    (hybrid_query fresh_wit_state fresh_wit_input).1.sensitivity
      = fresh_wit_state.sensitivity := by
  have hfresh : fresh_wit_input.x11_x ≠ fresh_wit_state.last_x11_x ∨
      fresh_wit_input.x11_y ≠ fresh_wit_state.last_x11_y := by
    left
    show (10 : ℝ) ≠ 0
    norm_num
  have h := hybrid_query_fresh_adopts fresh_wit_state fresh_wit_input hfresh
  exact ⟨hfresh, h.1, h.2.2.2.2.2.2 rfl rfl⟩

/-! ## Structural lemmas about the pet tick -/

lemma move_toward_state (p : Pet) (dx dy dist speed : ℝ) :
    (Pet.move_toward p dx dy dist speed).state = p.state := by
  unfold Pet.move_toward
  split_ifs <;> rfl

lemma pick_wander_target_state (p : Pet) (now_ms : ℝ) (w : WanderPick) :
    (Pet.pick_wander_target p now_ms w).state = p.state := rfl

lemma init_wander_state (p : Pet) (now_ms : ℝ) (r : TickRand) :
    (Pet.init_wander p now_ms r).state = p.state := rfl

lemma init_idle_state (p : Pet) (now_ms : ℝ) (r : TickRand) :
    (Pet.init_idle p now_ms r).state = p.state := rfl

lemma handle_chasing_state (p : Pet) (dx dy dist now_ms : ℝ) (r : TickRand) :
    (Pet.handle_chasing p dx dy dist now_ms r).state =
      if dist < config.NEAR_DISTANCE then PetState.WANDERING else p.state := by
  unfold Pet.handle_chasing
  split_ifs with h
  · rw [init_wander_state]
  · exact move_toward_state ..

lemma handle_wandering_state (p : Pet) (dx dy dist now_ms : ℝ) (r : TickRand) :
    (Pet.handle_wandering p dx dy dist now_ms r).state =
      if dist > config.FAR_DISTANCE ∧ p.seal_active = false then PetState.CHASING
      else if now_ms > p.wander_end_time then PetState.IDLING
      else p.state := by
  unfold Pet.handle_wandering
  split_ifs <;>
    simp [apply_ite Pet.state, init_idle_state, init_wander_state,
      pick_wander_target_state, move_toward_state]

lemma handle_idling_state (p : Pet) (dx dy dist now_ms : ℝ) (r : TickRand) :
    (Pet.handle_idling p dx dy dist now_ms r).state =
      if dist > config.FAR_DISTANCE ∧ p.seal_active = false then PetState.CHASING
      else if p.seal_active = false ∧
          hypot (p.mouse_x - p.idle_anchor_mouse_x) (p.mouse_y - p.idle_anchor_mouse_y)
            > config.MOUSE_MOVE_THRESHOLD * 10 then PetState.WANDERING
      else if p.seal_active = false ∧ p.mouse_idle_time > config.MOUSE_IDLE_T2 then
        PetState.SEAL_MODE
      else p.state := by
  unfold Pet.handle_idling
  split_ifs <;> simp [init_wander_state]

lemma handle_seal_mode_state (p : Pet) (dx dy dist now_ms : ℝ) (r : TickRand) :
    (Pet.handle_seal_mode p dx dy dist now_ms r).state =
      if p.seal_active = false then PetState.CHASING else p.state := by
  unfold Pet.handle_seal_mode
  split_ifs <;> simp [apply_ite Pet.state, move_toward_state]

lemma handle_dragging_state (p : Pet) :
    (Pet.handle_dragging p).state = p.state := rfl

lemma tick_pressed (p : Pet) (now_ms : ℝ) (r : TickRand)
    (hp : p.mouse_pressed = true) (hs : p.state ≠ PetState.DRAGGING) :
    Pet.tick p now_ms r
      = Pet.handle_dragging { p with prev_state := p.state, state := PetState.DRAGGING } := by
  have hc1 : p.mouse_pressed = true ∧ p.state ≠ PetState.DRAGGING := ⟨hp, hs⟩
  simp only [Pet.tick, if_pos hc1]

lemma tick_chasing (p : Pet) (now_ms : ℝ) (r : TickRand)
    (hp : p.mouse_pressed = false) (hs : p.state = PetState.CHASING) :
    Pet.tick p now_ms r = Pet.handle_chasing p ((Pet.tick_target p).1 - p.x)
      ((Pet.tick_target p).2 - p.y) (Pet.target_dist p) now_ms r := by
  have hc1 : ¬(p.mouse_pressed = true ∧ p.state ≠ PetState.DRAGGING) := by simp [hp]
  have hc2 : ¬(p.mouse_pressed = false ∧ p.state = PetState.DRAGGING) := by simp [hs]
  simp only [Pet.tick, if_neg hc1, if_neg hc2, Pet.target_dist]
  rw [hs]

lemma tick_wandering (p : Pet) (now_ms : ℝ) (r : TickRand)
    (hp : p.mouse_pressed = false) (hs : p.state = PetState.WANDERING) :
    Pet.tick p now_ms r = Pet.handle_wandering p ((Pet.tick_target p).1 - p.x)
      ((Pet.tick_target p).2 - p.y) (Pet.target_dist p) now_ms r := by
  have hc1 : ¬(p.mouse_pressed = true ∧ p.state ≠ PetState.DRAGGING) := by simp [hp]
  have hc2 : ¬(p.mouse_pressed = false ∧ p.state = PetState.DRAGGING) := by simp [hs]
  simp only [Pet.tick, if_neg hc1, if_neg hc2, Pet.target_dist]
  rw [hs]

lemma tick_idling (p : Pet) (now_ms : ℝ) (r : TickRand)
    (hp : p.mouse_pressed = false) (hs : p.state = PetState.IDLING) :
    Pet.tick p now_ms r = Pet.handle_idling p ((Pet.tick_target p).1 - p.x)
      ((Pet.tick_target p).2 - p.y) (Pet.target_dist p) now_ms r := by
  have hc1 : ¬(p.mouse_pressed = true ∧ p.state ≠ PetState.DRAGGING) := by simp [hp]
  have hc2 : ¬(p.mouse_pressed = false ∧ p.state = PetState.DRAGGING) := by simp [hs]
  simp only [Pet.tick, if_neg hc1, if_neg hc2, Pet.target_dist]
  rw [hs]

lemma tick_seal_mode (p : Pet) (now_ms : ℝ) (r : TickRand)
    (hp : p.mouse_pressed = false) (hs : p.state = PetState.SEAL_MODE) :
    Pet.tick p now_ms r = Pet.handle_seal_mode p ((Pet.tick_target p).1 - p.x)
      ((Pet.tick_target p).2 - p.y) (Pet.target_dist p) now_ms r := by
  have hc1 : ¬(p.mouse_pressed = true ∧ p.state ≠ PetState.DRAGGING) := by simp [hp]
  have hc2 : ¬(p.mouse_pressed = false ∧ p.state = PetState.DRAGGING) := by simp [hs]
  simp only [Pet.tick, if_neg hc1, if_neg hc2, Pet.target_dist]
  rw [hs]

lemma tick_release (p : Pet) (now_ms : ℝ) (r : TickRand)
    (hp : p.mouse_pressed = false) (hs : p.state = PetState.DRAGGING)
    (hprev : p.prev_state ≠ PetState.DRAGGING) :
    Pet.tick p now_ms r = Pet.tick { p with state := p.prev_state } now_ms r := by
  have hc1 : ¬(p.mouse_pressed = true ∧ p.state ≠ PetState.DRAGGING) := by simp [hp]
  have hc2 : p.mouse_pressed = false ∧ p.state = PetState.DRAGGING := ⟨hp, hs⟩
  have hc1' : ¬(({ p with state := p.prev_state } : Pet).mouse_pressed = true ∧
      ({ p with state := p.prev_state } : Pet).state ≠ PetState.DRAGGING) := by
    simp [hp]
  have hc2' : ¬(({ p with state := p.prev_state } : Pet).mouse_pressed = false ∧
      ({ p with state := p.prev_state } : Pet).state = PetState.DRAGGING) := by
    simpa using fun _ => hprev
  simp only [Pet.tick, if_neg hc1, if_pos hc2, if_neg hc1', if_neg hc2']

lemma tick_drag_hold (p : Pet) (now_ms : ℝ) (r : TickRand)
    (hp : p.mouse_pressed = true) (hs : p.state = PetState.DRAGGING) :
    Pet.tick p now_ms r = Pet.handle_dragging p := by
  have hc1 : ¬(p.mouse_pressed = true ∧ p.state ≠ PetState.DRAGGING) := by simp [hs]
  have hc2 : ¬(p.mouse_pressed = false ∧ p.state = PetState.DRAGGING) := by simp [hp]
  simp only [Pet.tick, if_neg hc1, if_neg hc2]
  rw [hs]

lemma tick_release_drag (p : Pet) (now_ms : ℝ) (r : TickRand)
    (hp : p.mouse_pressed = false) (hs : p.state = PetState.DRAGGING)
    (hprev : p.prev_state = PetState.DRAGGING) :
    Pet.tick p now_ms r = Pet.handle_dragging { p with state := p.prev_state } := by
  have hc1 : ¬(p.mouse_pressed = true ∧ p.state ≠ PetState.DRAGGING) := by simp [hp]
  have hc2 : p.mouse_pressed = false ∧ p.state = PetState.DRAGGING := ⟨hp, hs⟩
  simp only [Pet.tick, if_neg hc1, if_pos hc2]
  show (match p.prev_state with
    | PetState.CHASING => _
    | PetState.WANDERING => _
    | PetState.IDLING => _
    | PetState.DRAGGING => _
    | PetState.SEAL_MODE => _) = _
  rw [hprev]

lemma move_toward_appear (p : Pet) (dx dy dist speed : ℝ) :
    (Pet.move_toward p dx dy dist speed).seal_should_appear = p.seal_should_appear := by
  unfold Pet.move_toward
  split_ifs <;> rfl

lemma move_toward_disappear (p : Pet) (dx dy dist speed : ℝ) :
    (Pet.move_toward p dx dy dist speed).seal_should_disappear
      = p.seal_should_disappear := by
  unfold Pet.move_toward
  split_ifs <;> rfl

lemma handle_seal_mode_appear (p : Pet) (dx dy dist now_ms : ℝ) (r : TickRand) :
    (Pet.handle_seal_mode p dx dy dist now_ms r).seal_should_appear
      = p.seal_should_appear := by
  unfold Pet.handle_seal_mode
  split_ifs <;>
    simp [apply_ite Pet.seal_should_appear, move_toward_appear]

lemma handle_chasing_disappear (p : Pet) (dx dy dist now_ms : ℝ) (r : TickRand) :
    (Pet.handle_chasing p dx dy dist now_ms r).seal_should_disappear
      = p.seal_should_disappear := by
  unfold Pet.handle_chasing
  split_ifs <;> simp [Pet.init_wander, Pet.pick_wander_target, move_toward_disappear]

lemma handle_wandering_disappear (p : Pet) (dx dy dist now_ms : ℝ) (r : TickRand) :
    (Pet.handle_wandering p dx dy dist now_ms r).seal_should_disappear
      = p.seal_should_disappear := by
  unfold Pet.handle_wandering
  split_ifs <;>
    simp [apply_ite Pet.seal_should_disappear, Pet.init_idle, Pet.init_wander,
      Pet.pick_wander_target, move_toward_disappear]

lemma handle_idling_disappear (p : Pet) (dx dy dist now_ms : ℝ) (r : TickRand) :
    (Pet.handle_idling p dx dy dist now_ms r).seal_should_disappear
      = p.seal_should_disappear := by
  unfold Pet.handle_idling
  split_ifs <;>
    simp [apply_ite Pet.seal_should_disappear, Pet.init_wander, Pet.pick_wander_target]

lemma handle_seal_mode_disappear (p : Pet) (dx dy dist now_ms : ℝ) (r : TickRand) :
    (Pet.handle_seal_mode p dx dy dist now_ms r).seal_should_disappear
      = p.seal_should_disappear := by
  unfold Pet.handle_seal_mode
  split_ifs <;>
    simp [apply_ite Pet.seal_should_disappear, move_toward_disappear]

lemma tick_disappear_no_drag (p : Pet) (now_ms : ℝ) (r : TickRand)
    (hp : p.mouse_pressed = false) (hs : p.state ≠ PetState.DRAGGING) :
    (Pet.tick p now_ms r).seal_should_disappear = p.seal_should_disappear := by
  rcases hq : p.state with _ | _ | _ | _ | _
  · rw [tick_chasing p now_ms r hp hq]
    exact handle_chasing_disappear ..
  · rw [tick_wandering p now_ms r hp hq]
    exact handle_wandering_disappear ..
  · rw [tick_idling p now_ms r hp hq]
    exact handle_idling_disappear ..
  · exact absurd hq hs
  · rw [tick_seal_mode p now_ms r hp hq]
    exact handle_seal_mode_disappear ..

lemma tick_disappear (p : Pet) (now_ms : ℝ) (r : TickRand) :
    (Pet.tick p now_ms r).seal_should_disappear = p.seal_should_disappear := by
  by_cases hp : p.mouse_pressed = true
  · by_cases hs : p.state = PetState.DRAGGING
    · rw [tick_drag_hold p now_ms r hp hs]
      rfl
    · rw [tick_pressed p now_ms r hp hs]
      rfl
  · have hp' : p.mouse_pressed = false := by simpa using hp
    by_cases hs : p.state = PetState.DRAGGING
    · by_cases hprev : p.prev_state = PetState.DRAGGING
      · rw [tick_release_drag p now_ms r hp' hs hprev]
        rfl
      · rw [tick_release p now_ms r hp' hs hprev]
        exact tick_disappear_no_drag { p with state := p.prev_state } now_ms r hp' hprev
    · exact tick_disappear_no_drag p now_ms r hp' hs

lemma update_mouse_appear (p : Pet) (mx my : ℝ) (b : Bool) (now_ms : ℝ) :
    (Pet.update_mouse p mx my b now_ms).seal_should_appear
      = p.seal_should_appear := by
  simp only [Pet.update_mouse]
  split_ifs <;> rfl

lemma update_mouse_state (p : Pet) (mx my : ℝ) (b : Bool) (now_ms : ℝ) :
    (Pet.update_mouse p mx my b now_ms).state = p.state := by
  simp only [Pet.update_mouse]
  split_ifs <;> rfl

lemma update_mouse_pressed (p : Pet) (mx my : ℝ) (b : Bool) (now_ms : ℝ) :
    (Pet.update_mouse p mx my b now_ms).mouse_pressed = b := by
  simp only [Pet.update_mouse]
  split_ifs <;> rfl

lemma update_mouse_moved_seal (p : Pet) (mx my : ℝ) (b : Bool) (now_ms : ℝ)
    (h : hypot (mx - p.last_mouse_x) (my - p.last_mouse_y)
      > config.MOUSE_MOVE_THRESHOLD)
    (hseal : p.seal_active = true) :
    Pet.update_mouse p mx my b now_ms =
      { p with
        mouse_pressed := b, mouse_idle_start_ms := now_ms,
        mouse_idle_time := 0, seal_active := false, seal_should_disappear := true,
        last_mouse_x := mx, last_mouse_y := my, mouse_x := mx, mouse_y := my } := by
  simp only [Pet.update_mouse]
  rw [if_pos h, if_pos hseal]

lemma update_mouse_moved_no_seal (p : Pet) (mx my : ℝ) (b : Bool) (now_ms : ℝ)
    (h : hypot (mx - p.last_mouse_x) (my - p.last_mouse_y)
      > config.MOUSE_MOVE_THRESHOLD)
    (hseal : p.seal_active = false) :
    Pet.update_mouse p mx my b now_ms =
      { p with
        mouse_pressed := b, mouse_idle_start_ms := now_ms,
        mouse_idle_time := 0,
        last_mouse_x := mx, last_mouse_y := my, mouse_x := mx, mouse_y := my } := by
  simp only [Pet.update_mouse]
  rw [if_pos h, if_neg (by simp [hseal])]

lemma update_mouse_still (p : Pet) (mx my : ℝ) (b : Bool) (now_ms : ℝ)
    (h : ¬ hypot (mx - p.last_mouse_x) (my - p.last_mouse_y)
      > config.MOUSE_MOVE_THRESHOLD) :
    Pet.update_mouse p mx my b now_ms =
      { p with
        mouse_pressed := b,
        mouse_idle_time := now_ms - p.mouse_idle_start_ms,
        last_mouse_x := mx, last_mouse_y := my, mouse_x := mx, mouse_y := my } := by
  simp only [Pet.update_mouse]
  rw [if_neg h]

lemma update_mouse_disappear_of_inactive (p : Pet) (mx my : ℝ) (b : Bool)
    (now_ms : ℝ) (hseal : p.seal_active = false) :
    (Pet.update_mouse p mx my b now_ms).seal_should_disappear
      = p.seal_should_disappear := by
  simp only [Pet.update_mouse]
  split_ifs with h1 h2
  · simp [hseal] at h2
  · rfl
  · rfl

lemma handle_seal_mode_inactive (p : Pet) (dx dy dist now_ms : ℝ) (r : TickRand)
    (h : p.seal_active = false) :
    Pet.handle_seal_mode p dx dy dist now_ms r = { p with state := PetState.CHASING } := by
  unfold Pet.handle_seal_mode
  rw [if_pos h]

lemma tick_appear_seal_mode (p : Pet) (now_ms : ℝ) (r : TickRand)
    (hs : p.state = PetState.SEAL_MODE) :
    (Pet.tick p now_ms r).seal_should_appear = p.seal_should_appear := by
  by_cases hp : p.mouse_pressed = true
  · rw [tick_pressed p now_ms r hp (by simp [hs])]
    rfl
  · have hp' : p.mouse_pressed = false := by simpa using hp
    rw [tick_seal_mode p now_ms r hp' hs]
    exact handle_seal_mode_appear ..

/-! ## Concrete pets and oracles for witnesses and counterexamples -/

/-- Default pet, as `Pet.__init__(0, 0)` builds it (the initial state is
CHASING, no seal, flags clear, speeds from the configuration). -/
noncomputable def base_pet : Pet where
  x := 0
  y := 0
  state := PetState.CHASING
  prev_state := PetState.CHASING
  mouse_x := 0
  mouse_y := 0
  last_mouse_x := 0
  last_mouse_y := 0
  mouse_idle_start_ms := 0
  mouse_idle_time := 0
  mouse_pressed := false
  wander_anchor_x := 0
  wander_anchor_y := 0
  wander_target_x := 0
  wander_target_y := 0
  wander_end_time := 0
  wander_dir_change_time := 0
  idle_end_time := 0
  idle_anchor_mouse_x := 0
  idle_anchor_mouse_y := 0
  seal_active := false
  seal_x := 0
  seal_y := 0
  seal_wander_target_x := 0
  seal_wander_target_y := 0
  seal_wander_dir_time := 0
  current_gif := config.GIF_MOVE
  flipped := false
  seal_should_appear := false
  seal_should_disappear := false
  move_speed := config.MOVE_SPEED
  wander_speed := config.WANDER_SPEED

/-- Zero random oracle. -/
noncomputable def tr0 : TickRand := ⟨0, ⟨0, 0, 0⟩, ⟨0, 0, 0⟩, ⟨0, 0⟩, 0, ⟨0, 0, 0⟩⟩

/-! ## Claim theorems: pet state machine -/

/-- C6: the NEAR/FAR hysteresis band. A tick leaves CHASING for
WANDERING only when the target distance is below `NEAR_DISTANCE`, and
leaves WANDERING for CHASING only when it is above `FAR_DISTANCE` with
no active seal; hence for target distances strictly inside `(NEAR, FAR)`
no direct CHASING/WANDERING transition occurs in either direction. -/
theorem chase_wander_hysteresis (p : Pet) (now_ms : ℝ) (r : TickRand) :
    (p.state = PetState.CHASING → (Pet.tick p now_ms r).state = PetState.WANDERING →
      Pet.target_dist p < config.NEAR_DISTANCE) ∧
    (p.state = PetState.WANDERING → (Pet.tick p now_ms r).state = PetState.CHASING →
      Pet.target_dist p > config.FAR_DISTANCE ∧ p.seal_active = false) ∧
    (config.NEAR_DISTANCE < Pet.target_dist p → Pet.target_dist p < config.FAR_DISTANCE →
      ¬(p.state = PetState.CHASING ∧ (Pet.tick p now_ms r).state = PetState.WANDERING) ∧
      ¬(p.state = PetState.WANDERING ∧ (Pet.tick p now_ms r).state = PetState.CHASING)) := by
  have hCW : p.state = PetState.CHASING → (Pet.tick p now_ms r).state = PetState.WANDERING →
      Pet.target_dist p < config.NEAR_DISTANCE := by
    intro hC hW
    cases hp : p.mouse_pressed with
    | true =>
      rw [tick_pressed p now_ms r hp (by simp [hC])] at hW
      simp [Pet.handle_dragging] at hW
    | false =>
      rw [tick_chasing p now_ms r hp hC, handle_chasing_state] at hW
      by_cases hd : Pet.target_dist p < config.NEAR_DISTANCE
      · exact hd
      · rw [if_neg hd, hC] at hW
        simp at hW
  have hWC : p.state = PetState.WANDERING → (Pet.tick p now_ms r).state = PetState.CHASING →
      Pet.target_dist p > config.FAR_DISTANCE ∧ p.seal_active = false := by
    intro hWa hC
    cases hp : p.mouse_pressed with
    | true =>
      rw [tick_pressed p now_ms r hp (by simp [hWa])] at hC
      simp [Pet.handle_dragging] at hC
    | false =>
      rw [tick_wandering p now_ms r hp hWa, handle_wandering_state] at hC
      by_cases h1 : Pet.target_dist p > config.FAR_DISTANCE ∧ p.seal_active = false
      · exact h1
      · rw [if_neg h1] at hC
        by_cases h2 : now_ms > p.wander_end_time
        · rw [if_pos h2] at hC
          simp at hC
        · rw [if_neg h2, hWa] at hC
          simp at hC
  refine ⟨hCW, hWC, fun hlo hhi => ⟨fun hcon => ?_, fun hcon => ?_⟩⟩
  · exact absurd (hCW hcon.1 hcon.2) (not_lt.mpr (le_of_lt hlo))
  · exact absurd (hWC hcon.1 hcon.2).1 (not_lt.mpr (le_of_lt hhi))

/-- Pet in CHASING with the mouse 10 pixels away. -/
noncomputable def hyst_wit_pet : Pet := { base_pet with mouse_x := 10 }

/-- Witness for C6: at distance 10 the CHASING pet transitions to
WANDERING, and the theorem yields `10 < NEAR_DISTANCE`. -/
theorem chase_wander_hysteresis_witness :
    hyst_wit_pet.state = PetState.CHASING ∧
    (Pet.tick hyst_wit_pet 0 tr0).state = PetState.WANDERING ∧
    Pet.target_dist hyst_wit_pet < config.NEAR_DISTANCE := by
  have hd : Pet.target_dist hyst_wit_pet = 10 := by
    simp [Pet.target_dist, Pet.tick_target, hyst_wit_pet, base_pet]
    exact hypot_of_nonneg 10 (by norm_num)
  have h2 : (Pet.tick hyst_wit_pet 0 tr0).state = PetState.WANDERING := by
    rw [tick_chasing hyst_wit_pet 0 tr0 rfl rfl, handle_chasing_state, hd,
      if_pos (by norm_num [config.NEAR_DISTANCE])]
  exact ⟨rfl, h2, (chase_wander_hysteresis hyst_wit_pet 0 tr0).1 rfl h2⟩

/-- Pet in WANDERING with the button just pressed. -/
noncomputable def drag_cex_pet : Pet :=
  { base_pet with
    state := PetState.WANDERING, prev_state := PetState.WANDERING,
    mouse_pressed := true }

/-- The same pet while the button is held (state after the press tick). -/
noncomputable def drag_held_pet : Pet :=
  { base_pet with
    state := PetState.DRAGGING, prev_state := PetState.WANDERING,
    mouse_pressed := true, current_gif := config.GIF_DRAG }

/-- The held pet after a release tick has fed the distant mouse sample. -/
noncomputable def drag_rel_pet : Pet :=
  { base_pet with
    state := PetState.DRAGGING, prev_state := PetState.WANDERING,
    mouse_pressed := false, current_gif := config.GIF_DRAG,
    mouse_idle_start_ms := 33, mouse_idle_time := 0,
    last_mouse_x := 1000, last_mouse_y := 0, mouse_x := 1000, mouse_y := 0 }

/-- C7, counterexample: pressing while WANDERING does switch to DRAGGING
and remember WANDERING, but on the release tick the restored state's
handler runs in the same tick: releasing with the pointer 1000 pixels
away (beyond `FAR_DISTANCE`) leaves the tick in CHASING, not WANDERING,
so the release does not always restore exactly the remembered state. -/
theorem drag_restore_cex :
    (Pet.tick drag_cex_pet 0 tr0).state = PetState.DRAGGING ∧
    (Pet.tick drag_cex_pet 0 tr0).prev_state = PetState.WANDERING ∧
    (app_tick (Pet.tick drag_cex_pet 0 tr0) 1000 0 false 33 tr0).state
      = PetState.CHASING := by
  have h1 : Pet.tick drag_cex_pet 0 tr0 = drag_held_pet := by
    rw [tick_pressed drag_cex_pet 0 tr0 rfl (by simp [drag_cex_pet, base_pet])]
    rfl
  have hmove : hypot ((1000 : ℝ) - 0) ((0 : ℝ) - 0) > config.MOUSE_MOVE_THRESHOLD := by
    rw [sub_zero, sub_zero, hypot_of_nonneg 1000 (by norm_num)]
    norm_num [config.MOUSE_MOVE_THRESHOLD]
  have hu : Pet.update_mouse
      { drag_held_pet with seal_should_appear := false, seal_should_disappear := false }
      1000 0 false 33 = drag_rel_pet := by
    rw [update_mouse_moved_no_seal
      { drag_held_pet with seal_should_appear := false, seal_should_disappear := false }
      1000 0 false 33 hmove rfl]
    rfl
  have h2 : app_tick drag_held_pet 1000 0 false 33 tr0 = Pet.tick drag_rel_pet 33 tr0 := by
    simp only [app_tick]
    rw [hu]
  have h3 : (Pet.tick drag_rel_pet 33 tr0).state = PetState.CHASING := by
    rw [tick_release drag_rel_pet 33 tr0 rfl rfl (by simp [drag_rel_pet, base_pet])]
    rw [tick_wandering { drag_rel_pet with state := drag_rel_pet.prev_state } 33 tr0 rfl rfl]
    rw [handle_wandering_state]
    have hd : Pet.target_dist
        ({ drag_rel_pet with state := drag_rel_pet.prev_state } : Pet) = 1000 := by
      simp [Pet.target_dist, Pet.tick_target, drag_rel_pet, base_pet]
      exact hypot_of_nonneg 1000 (by norm_num)
    rw [hd]
    rw [if_pos (⟨by norm_num [config.FAR_DISTANCE], rfl⟩ :
      (1000 : ℝ) > config.FAR_DISTANCE ∧
      ({ drag_rel_pet with state := drag_rel_pet.prev_state } : Pet).seal_active = false)]
  exact ⟨by rw [h1]; rfl, by rw [h1]; rfl, by rw [h1, h2, h3]⟩

/-- C7, amended: pressing the button in any state other than DRAGGING
switches to DRAGGING with priority over everything else, remembering the
prior state; on the release tick the state is set back to the remembered
state and that state's handler then runs in the same tick, so the tick
ends in the remembered state provided none of its exit conditions hold —
for WANDERING: the target distance does not exceed `FAR_DISTANCE` and
the wander timer has not expired. -/
theorem drag_interrupt_restore :
    (∀ (p : Pet) (now_ms : ℝ) (r : TickRand),
      p.mouse_pressed = true → p.state ≠ PetState.DRAGGING →
      (Pet.tick p now_ms r).state = PetState.DRAGGING ∧
      (Pet.tick p now_ms r).prev_state = p.state) ∧
    (∀ (p : Pet) (now_ms : ℝ) (r : TickRand),
      p.mouse_pressed = false → p.state = PetState.DRAGGING →
      p.prev_state = PetState.WANDERING → p.seal_active = false →
      ¬ hypot (p.mouse_x - p.x) (p.mouse_y - p.y) > config.FAR_DISTANCE →
      ¬ now_ms > p.wander_end_time →
      (Pet.tick p now_ms r).state = PetState.WANDERING) := by
  constructor
  · intro p now_ms r hp hs
    rw [tick_pressed p now_ms r hp hs]
    exact ⟨rfl, rfl⟩
  · intro p now_ms r hp hs hprev hseal hdist htimer
    rw [tick_release p now_ms r hp hs (by simp [hprev])]
    rw [tick_wandering { p with state := p.prev_state } now_ms r hp hprev]
    rw [handle_wandering_state]
    have hd : Pet.target_dist ({ p with state := p.prev_state } : Pet)
        = hypot (p.mouse_x - p.x) (p.mouse_y - p.y) := by
      simp [Pet.target_dist, Pet.tick_target, hseal]
    rw [hd, if_neg (fun hcon => hdist hcon.1), if_neg htimer]
    exact hprev

/-- Pet in WANDERING about to be pressed. -/
noncomputable def drag_wit_pet : Pet :=
  { base_pet with
    state := PetState.WANDERING, mouse_pressed := true }

/-- Pet in DRAGGING remembering WANDERING, button released, wander timer
still running. -/
noncomputable def drag_wit_rel : Pet :=
  { base_pet with
    state := PetState.DRAGGING, prev_state := PetState.WANDERING,
    wander_end_time := 100 }

/-- Witness for the amended C7 theorem: press in WANDERING enters
DRAGGING remembering WANDERING; release with the mouse nearby and the
wander timer unexpired ends the tick in WANDERING. -/
theorem drag_interrupt_restore_witness :
    drag_wit_pet.mouse_pressed = true ∧ drag_wit_pet.state ≠ PetState.DRAGGING ∧
    (Pet.tick drag_wit_pet 0 tr0).state = PetState.DRAGGING ∧
    (Pet.tick drag_wit_pet 0 tr0).prev_state = drag_wit_pet.state ∧
    drag_wit_rel.mouse_pressed = false ∧ drag_wit_rel.state = PetState.DRAGGING ∧
    drag_wit_rel.prev_state = PetState.WANDERING ∧
    (Pet.tick drag_wit_rel 33 tr0).state = PetState.WANDERING := by
  have hsne : drag_wit_pet.state ≠ PetState.DRAGGING := by
    simp [drag_wit_pet, base_pet]
  have h1 := drag_interrupt_restore.1 drag_wit_pet 0 tr0 rfl hsne
  have hd : ¬ hypot (drag_wit_rel.mouse_x - drag_wit_rel.x)
      (drag_wit_rel.mouse_y - drag_wit_rel.y) > config.FAR_DISTANCE := by
    show ¬ hypot ((0 : ℝ) - 0) ((0 : ℝ) - 0) > config.FAR_DISTANCE
    norm_num [hypot_zero, config.FAR_DISTANCE]
  have ht : ¬ (33 : ℝ) > drag_wit_rel.wander_end_time := by
    show ¬ (33 : ℝ) > 100
    norm_num
  have h2 := drag_interrupt_restore.2 drag_wit_rel 33 tr0 rfl rfl rfl rfl hd ht
  exact ⟨rfl, hsne, h1.1, h1.2, rfl, rfl, rfl, h2⟩

/-- C4: the seal lifecycle.  (1) A tick in IDLING with no active seal,
button up, target within `FAR_DISTANCE`, pointer near its idle anchor,
and `mouse_idle_time` past `MOUSE_IDLE_T2` fires the spawn flag and
moves to SEAL_MODE with the seal active.  (2) While in SEAL_MODE no
further application tick fires the spawn flag.  (3) An application tick
whose pointer displacement exceeds the movement threshold while the seal
is active fires the despawn flag, deactivates the seal, and the
state-machine tick of that same application tick returns SEAL_MODE to
CHASING.  (4) With no active seal no application tick fires the despawn
flag. -/
theorem seal_lifecycle :
    (∀ (p : Pet) (now_ms : ℝ) (r : TickRand),
      p.state = PetState.IDLING → p.seal_active = false → p.mouse_pressed = false →
      ¬ Pet.target_dist p > config.FAR_DISTANCE →
      ¬ hypot (p.mouse_x - p.idle_anchor_mouse_x) (p.mouse_y - p.idle_anchor_mouse_y)
          > config.MOUSE_MOVE_THRESHOLD * 10 →
      p.mouse_idle_time > config.MOUSE_IDLE_T2 →
      (Pet.tick p now_ms r).seal_should_appear = true ∧
      (Pet.tick p now_ms r).state = PetState.SEAL_MODE ∧
      (Pet.tick p now_ms r).seal_active = true) ∧
    (∀ (p : Pet) (mx my : ℝ) (b : Bool) (now_ms : ℝ) (r : TickRand),
      p.state = PetState.SEAL_MODE →
      (app_tick p mx my b now_ms r).seal_should_appear = false) ∧
    (∀ (p : Pet) (mx my now_ms : ℝ) (r : TickRand),
      p.state = PetState.SEAL_MODE → p.seal_active = true →
      hypot (mx - p.last_mouse_x) (my - p.last_mouse_y) > config.MOUSE_MOVE_THRESHOLD →
      (app_tick p mx my false now_ms r).seal_should_disappear = true ∧
      (app_tick p mx my false now_ms r).seal_active = false ∧
      (app_tick p mx my false now_ms r).state = PetState.CHASING) ∧
    (∀ (p : Pet) (mx my : ℝ) (b : Bool) (now_ms : ℝ) (r : TickRand),
      p.seal_active = false →
      (app_tick p mx my b now_ms r).seal_should_disappear = false) := by
  refine ⟨?_, ?_, ?_, ?_⟩
  · intro p now_ms r hs hseal hp hdist hanchor hidle
    rw [tick_idling p now_ms r hp hs]
    unfold Pet.handle_idling
    rw [if_neg (fun hcon => hdist hcon.1), if_neg (fun hcon => hanchor hcon.2),
      if_pos ⟨hseal, hidle⟩]
    exact ⟨rfl, rfl, rfl⟩
  · intro p mx my b now_ms r hs
    simp only [app_tick]
    have hqs : (Pet.update_mouse
        { p with seal_should_appear := false, seal_should_disappear := false }
        mx my b now_ms).state = PetState.SEAL_MODE := by
      rw [update_mouse_state]
      exact hs
    rw [tick_appear_seal_mode _ now_ms r hqs, update_mouse_appear]
  · intro p mx my now_ms r hs hseal hmove
    have e : app_tick p mx my false now_ms r
        = Pet.tick
          { p with
            mouse_pressed := false, mouse_idle_start_ms := now_ms, mouse_idle_time := 0,
            seal_active := false, seal_should_disappear := true,
            last_mouse_x := mx, last_mouse_y := my, mouse_x := mx, mouse_y := my,
            seal_should_appear := false } now_ms r := by
      simp only [app_tick]
      rw [update_mouse_moved_seal
        { p with seal_should_appear := false, seal_should_disappear := false }
        mx my false now_ms hmove hseal]
    rw [e]
    rw [tick_seal_mode
      { p with
        mouse_pressed := false, mouse_idle_start_ms := now_ms, mouse_idle_time := 0,
        seal_active := false, seal_should_disappear := true,
        last_mouse_x := mx, last_mouse_y := my, mouse_x := mx, mouse_y := my,
        seal_should_appear := false } now_ms r rfl hs]
    rw [handle_seal_mode_inactive _ _ _ _ _ _ rfl]
    exact ⟨rfl, rfl, rfl⟩
  · intro p mx my b now_ms r hseal
    simp only [app_tick]
    rw [tick_disappear, update_mouse_disappear_of_inactive
      { p with seal_should_appear := false, seal_should_disappear := false }
      mx my b now_ms hseal]

/-- Pet idling with the mouse idle for 130 s. -/
noncomputable def seal_wit_pet : Pet :=
  { base_pet with
    state := PetState.IDLING, mouse_idle_time := 130000 }

/-- Pet in SEAL_MODE with an active seal. -/
noncomputable def seal_on_pet : Pet :=
  { base_pet with
    state := PetState.SEAL_MODE, seal_active := true }

/-- Witness for C4: the idle pet spawns the seal and enters SEAL_MODE;
in SEAL_MODE the spawn flag stays down; a 10-pixel pointer move fires
the despawn flag and the same application tick returns to CHASING; with
no seal the despawn flag stays down. -/
theorem seal_lifecycle_witness :
    seal_wit_pet.state = PetState.IDLING ∧ seal_wit_pet.seal_active = false ∧
    seal_wit_pet.mouse_idle_time > config.MOUSE_IDLE_T2 ∧
    (Pet.tick seal_wit_pet 0 tr0).seal_should_appear = true ∧
    (Pet.tick seal_wit_pet 0 tr0).state = PetState.SEAL_MODE ∧
    (app_tick seal_on_pet 0 0 false 33 tr0).seal_should_appear = false ∧
    hypot ((10 : ℝ) - seal_on_pet.last_mouse_x) ((0 : ℝ) - seal_on_pet.last_mouse_y)
      > config.MOUSE_MOVE_THRESHOLD ∧
    (app_tick seal_on_pet 10 0 false 33 tr0).seal_should_disappear = true ∧
    (app_tick seal_on_pet 10 0 false 33 tr0).state = PetState.CHASING ∧
    (app_tick base_pet 0 0 false 33 tr0).seal_should_disappear = false := by
  have hdist : ¬ Pet.target_dist seal_wit_pet > config.FAR_DISTANCE := by
    have h0 : Pet.target_dist seal_wit_pet = 0 := by
      simp [Pet.target_dist, Pet.tick_target, seal_wit_pet, base_pet, hypot_zero]
    rw [h0]
    norm_num [config.FAR_DISTANCE]
  have hanchor : ¬ hypot (seal_wit_pet.mouse_x - seal_wit_pet.idle_anchor_mouse_x)
      (seal_wit_pet.mouse_y - seal_wit_pet.idle_anchor_mouse_y)
      > config.MOUSE_MOVE_THRESHOLD * 10 := by
    show ¬ hypot ((0 : ℝ) - 0) ((0 : ℝ) - 0) > config.MOUSE_MOVE_THRESHOLD * 10
    rw [sub_zero, hypot_zero]
    norm_num [config.MOUSE_MOVE_THRESHOLD]
  have hidle : seal_wit_pet.mouse_idle_time > config.MOUSE_IDLE_T2 := by
    show (130000 : ℝ) > config.MOUSE_IDLE_T2
    norm_num [config.MOUSE_IDLE_T2]
  have h1 := seal_lifecycle.1 seal_wit_pet 0 tr0 rfl rfl rfl hdist hanchor hidle
  have hmove : hypot ((10 : ℝ) - seal_on_pet.last_mouse_x)
      ((0 : ℝ) - seal_on_pet.last_mouse_y) > config.MOUSE_MOVE_THRESHOLD := by
    show hypot ((10 : ℝ) - 0) ((0 : ℝ) - 0) > config.MOUSE_MOVE_THRESHOLD
    rw [sub_zero, sub_zero, hypot_of_nonneg 10 (by norm_num)]
    norm_num [config.MOUSE_MOVE_THRESHOLD]
  have h2 := seal_lifecycle.2.1 seal_on_pet 0 0 false 33 tr0 rfl
  have h3 := seal_lifecycle.2.2.1 seal_on_pet 10 0 33 tr0 rfl rfl hmove
  have h4 := seal_lifecycle.2.2.2 base_pet 0 0 false 33 tr0 rfl
  exact ⟨rfl, rfl, hidle, h1.1, h1.2.1, h2, hmove, h3.1, h3.2.2, h4⟩

/-! ## Idle-animation ramp (`Pet._pick_idle_gif`) -/

/-- Pet whose mouse idle time is 60000 ms. -/
noncomputable def idle_wit_pet : Pet :=
  { base_pet with mouse_idle_time := 60000 }

/-- Pet whose mouse idle time is 90000 ms. -/
noncomputable def idle_wit_pet90 : Pet :=
  { base_pet with mouse_idle_time := 90000 }

/-- Rolls in `[0, 1)` for which one draw of the idle-animation selection
picks the special `idle2.gif`; the draw's probability is the Lebesgue
volume of this set, `random.random()` being uniform on `[0, 1)`. -/
noncomputable def idle2_selection_set (p : Pet) (ci : Nat) : Set ℝ :=
  {roll | roll ∈ Set.Ico (0 : ℝ) 1 ∧
    Pet.pick_idle_gif p ⟨ci, roll⟩ = config.GIF_IDLE2}

lemma pick_idle_gif_60000 (ci : Nat) (r : ℝ) :
    Pet.pick_idle_gif idle_wit_pet ⟨ci, r⟩ = config.GIF_IDLE2 ↔
      1 / 10 ≤ r ∧ r < 7 / 10 := by
  have hn : ¬ (config.GIF_IDLE.length = 0) := by decide
  have hT : ¬ idle_wit_pet.mouse_idle_time < config.MOUSE_IDLE_T1 := by
    show ¬ (60000 : ℝ) < config.MOUSE_IDLE_T1
    norm_num [config.MOUSE_IDLE_T1]
  unfold Pet.pick_idle_gif
  rw [if_neg hn, if_neg hT]
  rw [show config.GIF_IDLE = [config.Gif.idle 1, config.Gif.idle 2, config.Gif.idle 3,
    config.Gif.idle 4, config.Gif.idle 5] from rfl]
  simp only [Pet.pick_cumulative]
  norm_num [config.GIF_IDLE2, config.MOUSE_IDLE_T1, config.IDLE2_RAMP_DURATION, min_def,
    idle_wit_pet, base_pet]
  rcases lt_or_le r (1 / 10) with h1 | h1
  · rw [if_pos h1]
    show config.Gif.idle 1 = config.Gif.idle 2 ↔ _
    constructor
    · intro h
      exact absurd h (by simp)
    · rintro ⟨h2, h3⟩
      linarith
  · rw [if_neg (not_lt.mpr h1)]
    rcases lt_or_le r (7 / 10) with h2 | h2
    · rw [if_pos h2]
      show config.Gif.idle 2 = config.Gif.idle 2 ↔ _
      exact ⟨fun _ => ⟨h1, h2⟩, fun _ => rfl⟩
    · rw [if_neg (not_lt.mpr h2)]
      rcases lt_or_le r (4 / 5) with h3 | h3
      · rw [if_pos h3]
        show config.Gif.idle 3 = config.Gif.idle 2 ↔ _
        constructor
        · intro h
          exact absurd h (by simp)
        · rintro ⟨h4, h5⟩
          linarith
      · rw [if_neg (not_lt.mpr h3)]
        rcases lt_or_le r (9 / 10) with h4 | h4
        · rw [if_pos h4]
          show config.Gif.idle 4 = config.Gif.idle 2 ↔ _
          constructor
          · intro h
            exact absurd h (by simp)
          · rintro ⟨h5, h6⟩
            linarith
        · rw [if_neg (not_lt.mpr h4)]
          rcases lt_or_le r 1 with h5 | h5
          · rw [if_pos h5]
            show config.Gif.idle 5 = config.Gif.idle 2 ↔ _
            constructor
            · intro h
              exact absurd h (by simp)
            · rintro ⟨h6, h7⟩
              linarith
          · rw [if_neg (not_lt.mpr h5)]
            show config.Gif.idle 5 = config.Gif.idle 2 ↔ _
            constructor
            · intro h
              exact absurd h (by simp)
            · rintro ⟨h6, h7⟩
              linarith

lemma pick_idle_gif_90000 (ci : Nat) (r : ℝ) :
    Pet.pick_idle_gif idle_wit_pet90 ⟨ci, r⟩ = config.GIF_IDLE2 ↔
      0 ≤ r ∧ r < 1 := by
  have hn : ¬ (config.GIF_IDLE.length = 0) := by decide
  have hT : ¬ idle_wit_pet90.mouse_idle_time < config.MOUSE_IDLE_T1 := by
    show ¬ (90000 : ℝ) < config.MOUSE_IDLE_T1
    norm_num [config.MOUSE_IDLE_T1]
  unfold Pet.pick_idle_gif
  rw [if_neg hn, if_neg hT]
  rw [show config.GIF_IDLE = [config.Gif.idle 1, config.Gif.idle 2, config.Gif.idle 3,
    config.Gif.idle 4, config.Gif.idle 5] from rfl]
  simp only [Pet.pick_cumulative]
  norm_num [config.GIF_IDLE2, config.MOUSE_IDLE_T1, config.IDLE2_RAMP_DURATION, min_def,
    idle_wit_pet90, base_pet]
  rcases lt_or_le r 0 with h1 | h1
  · rw [if_pos h1]
    show config.Gif.idle 1 = config.Gif.idle 2 ↔ _
    constructor
    · intro h
      exact absurd h (by simp)
    · rintro ⟨h2, h3⟩
      linarith
  · rw [if_neg (not_lt.mpr h1)]
    rcases lt_or_le r 1 with h2 | h2
    · rw [if_pos h2]
      show config.Gif.idle 2 = config.Gif.idle 2 ↔ _
      exact ⟨fun _ => ⟨h1, h2⟩, fun _ => rfl⟩
    · simp only [if_neg (not_lt.mpr h2)]
      show config.Gif.idle 5 = config.Gif.idle 2 ↔ _
      constructor
      · intro h
        exact absurd h (by simp)
      · rintro ⟨h3, h4⟩
        linarith

lemma idle2_set_60000 (ci : Nat) :
    idle2_selection_set idle_wit_pet ci = Set.Ico (1 / 10 : ℝ) (7 / 10) := by
  ext r
  simp only [idle2_selection_set, Set.mem_setOf_eq, Set.mem_Ico,
    pick_idle_gif_60000]
  constructor
  · rintro ⟨_, h⟩
    exact h
  · rintro ⟨h1, h2⟩
    exact ⟨⟨le_trans (by norm_num) h1, lt_trans h2 (by norm_num)⟩, h1, h2⟩

lemma idle2_set_90000 (ci : Nat) :
    idle2_selection_set idle_wit_pet90 ci = Set.Ico (0 : ℝ) 1 := by
  ext r
  simp only [idle2_selection_set, Set.mem_setOf_eq, Set.mem_Ico,
    pick_idle_gif_90000]
  constructor
  · rintro ⟨_, h⟩
    exact h
  · rintro ⟨h1, h2⟩
    exact ⟨⟨h1, h2⟩, h1, h2⟩

/-- C8, counterexample: at `mouse_idle_time = 60000` the probability of
drawing the special idle variant is `3/5`, not `1/2` — the ramp is
`1/2`, so the policy "rises linearly from `1/n` to `1`" gives
`1/5 + (1/2)(4/5) = 3/5`. -/
theorem idle_ramp_cex :
    MeasureTheory.volume (idle2_selection_set idle_wit_pet 0)
      ≠ ENNReal.ofReal (1 / 2) := by
  rw [idle2_set_60000, Real.volume_Ico,
    show (7 / 10 : ℝ) - 1 / 10 = 3 / 5 by norm_num, Ne,
    ENNReal.ofReal_eq_ofReal_iff (by norm_num) (by norm_num)]
  norm_num

/-- C8, amended: one draw of the idle-animation selection picks the
special variant with probability `3/5` when `mouse_idle_time = 60000`
(ramp `1/2`, probability `1/n + ramp * (1 - 1/n)`) and with probability
`1` when `mouse_idle_time = 90000` (ramp `1`). -/
theorem idle_ramp_probabilities :
    MeasureTheory.volume (idle2_selection_set idle_wit_pet 0)
      = ENNReal.ofReal (3 / 5) ∧
    MeasureTheory.volume (idle2_selection_set idle_wit_pet90 0)
      = ENNReal.ofReal 1 := by
  constructor
  · rw [idle2_set_60000, Real.volume_Ico]
    norm_num
  · rw [idle2_set_90000, Real.volume_Ico]
    norm_num
